import Mathlib

/-!
Shallow embedding of the verification-gated submission forms of the
emistcioe/doce repository (ResearchSubmissionForm.tsx,
JournalSubmissionForm.tsx) and of its API base-URL helper
(getPublicApiUrl).  Pure computations of the TypeScript source are
translated into Lean functions; the effects of the event handlers
(state updates, storage writes, navigation, toasts, the single HTTP
request) are made explicit as returned data.  JavaScript strings are
modelled as Lean strings, JavaScript numbers as rationals with NaN
represented by none, and absent object fields (undefined) as none.
-/

namespace Doce

/-- JavaScript truthiness of a string-or-undefined value: undefined and
the empty string are falsy, every other string is truthy.  Returns the
value when truthy and none otherwise. -/
def truthyStr (o : Option String) : Option String :=
  match o with
  | none => none
  | some s => if s = "" then none else some s

/-- Model of the JavaScript String.prototype.trim used by the forms:
removes leading and trailing whitespace.  (Implemented over the
character list so that concrete instances evaluate inside the kernel.) -/
def jsTrim (s : String) : String :=
  String.mk (((s.data.dropWhile Char.isWhitespace).reverse.dropWhile
    Char.isWhitespace).reverse)

/-- Embedding of the TypeScript idiom `s.trim() || undefined`: the
trimmed string when it is nonempty, otherwise absent. -/
def trimOrNone (s : String) : Option String :=
  let t := jsTrim s
  if t = "" then none else some t

/-- Embedding of the TypeScript idiom `s || undefined` (no trimming):
the string when nonempty, otherwise absent. -/
def strOrNone (s : String) : Option String :=
  if s = "" then none else some s

/-- Embedding of the error-message chain `a || b || fallback` used on
failed responses: the first truthy field, else the fallback. -/
def jsMessage (a b : Option String) (fallback : String) : String :=
  match truthyStr a with
  | some s => s
  | none =>
    match truthyStr b with
    | some s => s
    | none => fallback

/-- Whether every character of the list is a decimal digit. -/
def allDigits (cs : List Char) : Bool :=
  cs.all Char.isDigit

/-- Value of a list of decimal digits read left to right. -/
def digitsToNat (cs : List Char) : Nat :=
  cs.foldl (fun acc c => acc * 10 + (c.toNat - 48)) 0

/-- Unsigned decimal numeral: digits with at most one dot, at least one
digit in total; none when the shape is not that of a decimal numeral. -/
def parseUnsigned (cs : List Char) : Option ℚ :=
  match cs.span (fun c => c != '.') with
  | (ip, []) =>
    if !ip.isEmpty && allDigits ip then some (digitsToNat ip : ℚ) else none
  | (ip, _ :: fp) =>
    if (!ip.isEmpty || !fp.isEmpty) && allDigits ip && allDigits fp
        && !fp.contains '.' then
      some ((digitsToNat ip : ℚ) + (digitsToNat fp : ℚ) / ((10 : ℚ) ^ fp.length))
    else none

/-- Model of the ECMAScript Number conversion applied to the string
inputs the forms produce: surrounding whitespace is stripped, the empty
string converts to 0, an optionally signed decimal numeral converts to
its value, and anything else gives NaN, represented as none.  (Exotic
accepted forms such as hex or exponent notation are outside the inputs
of interest and map to none here.) -/
def jsNumber (s : String) : Option ℚ :=
  let t := jsTrim s
  if t = "" then some 0
  else
    match t.data with
    | '+' :: cs => parseUnsigned cs
    | '-' :: cs => (parseUnsigned cs).map Neg.neg
    | cs => parseUnsigned cs

/-- UTF-8 encoding of a single character, as byte values. -/
def utf8Bytes (c : Char) : List Nat :=
  let n := c.toNat
  if n < 128 then [n]
  else if n < 2048 then [192 + n / 64, 128 + n % 64]
  else if n < 65536 then [224 + n / 4096, 128 + (n / 64) % 64, 128 + n % 64]
  else [240 + n / 262144, 128 + (n / 4096) % 64, 128 + (n / 64) % 64, 128 + n % 64]

/-- Uppercase hexadecimal digit for a value below 16. -/
def hexDigit (n : Nat) : Char :=
  if n < 10 then Char.ofNat (48 + n) else Char.ofNat (55 + n)

/-- Bytes left verbatim by the application/x-www-form-urlencoded
serializer: ASCII alphanumerics and asterisk, hyphen, period,
underscore. -/
def isUnreservedByte (b : Nat) : Bool :=
  (48 ≤ b && b ≤ 57) || (65 ≤ b && b ≤ 90) || (97 ≤ b && b ≤ 122)
    || b == 42 || b == 45 || b == 46 || b == 95

/-- Serialization of one byte: space becomes a plus sign, unreserved
bytes stand for themselves, every other byte is percent-encoded with
uppercase hexadecimal digits. -/
def encodeByte (b : Nat) : String :=
  if b == 32 then "+"
  else if isUnreservedByte b then String.singleton (Char.ofNat b)
  else String.mk ['%', hexDigit (b / 16), hexDigit (b % 16)]

/-- Model of the URLSearchParams component encoding: UTF-8 bytes of the
string, each serialized by encodeByte. -/
def formUrlEncode (s : String) : String :=
  String.join (((s.data.map utf8Bytes).flatten).map encodeByte)

/-- Model of URLSearchParams.toString over an insertion-ordered list of
key-value pairs. -/
def encodePairs (ps : List (String × String)) : String :=
  String.intercalate "&" (ps.map (fun p => formUrlEncode p.1 ++ "=" ++ formUrlEncode p.2))

/-- The fixed API base host of the configuration module. -/
def API_BASE : String := "https://cdn.tcioe.edu.np"

/-- Whether the string starts with the given character, as the source
tests with path.startsWith("/").  List-based so concrete instances
evaluate inside the kernel. -/
def strStartsWithChar (s : String) (c : Char) : Bool :=
  match s.data with
  | [] => false
  | d :: _ => d == c

/-- Embedding of `API_BASE.replace(/\/$/, "")`: removes one trailing
slash when present. -/
def stripTrailingSlash (s : String) : String :=
  if s.data.getLast? == some '/' then String.mk s.data.dropLast else s

/-- Embedding of getPublicApiUrl.  The proxy and debug flags are read
from process configuration at module load; they are passed here as
parameters.  The debug branch of the source has an empty try/catch body
and so contributes nothing to the result. -/
def getPublicApiUrl (useProxy debugApi : Bool) (path : String) : String :=
  if useProxy then
    "/api/proxy" ++ (if strStartsWithChar path '/' then "" else "/") ++ path
  else
    let base := stripTrailingSlash API_BASE
    let suffix := if strStartsWithChar path '/' then path else "/" ++ path
    let _ := debugApi
    base ++ suffix

/-- Verification data captured by a form once a stored proof is
accepted: the verified email and the OTP session identifier. -/
structure VerifData where
  email : String
  sessionId : String
deriving DecidableEq

/-- Parsed shape of the verification proof stored by the external
verification page under the key verification_complete.  The purpose and
name fields may be absent from the stored JSON record (undefined reads
map to none). -/
structure ProofData where
  purpose : Option String
  verifiedAt : Int
  email : String
  sessionId : String
  name : Option String
deriving DecidableEq

/-- Outcome of reading the verification_complete storage key and
running JSON.parse on it: the key can be absent (getItem null or an
empty, hence falsy, string), the stored string can fail to parse, or it
parses to a proof record. -/
inductive StoredProof where
  | absent
  | malformed
  | parsed (d : ProofData)
deriving DecidableEq

/-- Effects of one run of the verification-ingestion useEffect: the
verified flag and verification data written by the state setters, the
form-field prefills applied through setValue, and the toast, with none
meaning the field in question was left untouched. -/
structure IngestOutcome where
  isVerified : Bool
  verificationData : Option VerifData
  emailPrefill : Option String
  namePrefill : Option String
  toast : Option String
deriving DecidableEq

/-- The no-op outcome: the effect leaves the form unverified and
touches nothing. -/
def noIngest : IngestOutcome :=
  { isVerified := false, verificationData := none, emailPrefill := none,
    namePrefill := none, toast := none }

/-- Embedding of the verification-completion useEffect of
ResearchSubmissionForm: runs when the verified query parameter is the
literal "true", reads the stored proof, and accepts it exactly when its
purpose is "research_submission" and it is under 30 minutes old at the
current time. -/
def researchIngest (verifiedParam : Option String) (stored : StoredProof)
    (now : Int) : IngestOutcome :=
  if verifiedParam = some "true" then
    match stored with
    | .absent => noIngest
    | .malformed => noIngest
    | .parsed d =>
      if d.purpose = some "research_submission" ∧ now - d.verifiedAt < 30 * 60 * 1000 then
        { isVerified := true
          verificationData := some { email := d.email, sessionId := d.sessionId }
          emailPrefill := some d.email
          namePrefill := truthyStr d.name
          toast := some "Email verified successfully!" }
      else noIngest
  else noIngest

/-- Embedding of the verification-completion useEffect of
JournalSubmissionForm: identical to the research one except that the
expected purpose is "journal_submission". -/
def journalIngest (verifiedParam : Option String) (stored : StoredProof)
    (now : Int) : IngestOutcome :=
  if verifiedParam = some "true" then
    match stored with
    | .absent => noIngest
    | .malformed => noIngest
    | .parsed d =>
      if d.purpose = some "journal_submission" ∧ now - d.verifiedAt < 30 * 60 * 1000 then
        { isVerified := true
          verificationData := some { email := d.email, sessionId := d.sessionId }
          emailPrefill := some d.email
          namePrefill := truthyStr d.name
          toast := some "Email verified successfully!" }
      else noIngest
  else noIngest

/-- One participant row of the research form. -/
structure ParticipantForm where
  fullName : String
  participantType : String
  email : String
  role : String
  designation : String
  organization : String
  linkedinUrl : String
  orcidId : String
deriving DecidableEq

/-- Field values of the research form. -/
structure ResearchFormValues where
  title : String
  abstract : String
  description : String
  researchType : String
  status : String
  principalInvestigator : String
  piEmail : String
  startDate : String
  endDate : String
  fundingAgency : String
  fundingAmount : String
  keywords : String
  methodology : String
  expectedOutcomes : String
  publicationsUrl : String
  projectUrl : String
  githubUrl : String
  submittedByName : String
  submittedByEmail : String
  participants : List ParticipantForm
deriving DecidableEq

/-- The defaultValues constant of ResearchSubmissionForm.tsx. -/
def researchDefaultValues : ResearchFormValues :=
  { title := "", abstract := "", description := "", researchType := "applied",
    status := "proposed", principalInvestigator := "", piEmail := "",
    startDate := "", endDate := "", fundingAgency := "", fundingAmount := "",
    keywords := "", methodology := "", expectedOutcomes := "",
    publicationsUrl := "", projectUrl := "", githubUrl := "",
    submittedByName := "", submittedByEmail := "",
    participants := [{ fullName := "", participantType := "student", email := "",
                       role := "Researcher", designation := "", organization := "",
                       linkedinUrl := "", orcidId := "" }] }

/-- Participant entry of the outgoing research payload. -/
structure ParticipantPayload where
  full_name : String
  participant_type : String
  email : Option String
  role : Option String
  designation : Option String
  organization : Option String
  linkedin_url : Option String
  orcid_id : Option String
  department : String
deriving DecidableEq

/-- The map step over participant rows in the research onSubmit. -/
def researchParticipant (deptUuid : String) (p : ParticipantForm) : ParticipantPayload :=
  { full_name := jsTrim p.fullName
    participant_type := p.participantType
    email := trimOrNone p.email
    role := trimOrNone p.role
    designation := trimOrNone p.designation
    organization := trimOrNone p.organization
    linkedin_url := trimOrNone p.linkedinUrl
    orcid_id := trimOrNone p.orcidId
    department := deptUuid }

/-- The participants array built by the research onSubmit: map each row
to its payload entry, then keep the entries whose full_name is truthy
(nonempty after trimming). -/
def researchParticipants (deptUuid : String) (rows : List ParticipantForm) :
    List ParticipantPayload :=
  (rows.map (researchParticipant deptUuid)).filter (fun q => q.full_name != "")

/-- The outgoing research submission payload. -/
structure ResearchPayload where
  title : String
  abstract : String
  description : String
  research_type : String
  status : String
  principal_investigator : String
  pi_email : String
  start_date : Option String
  end_date : Option String
  funding_agency : Option String
  funding_amount : Option ℚ
  keywords : Option String
  methodology : Option String
  expected_outcomes : Option String
  publications_url : Option String
  project_url : Option String
  github_url : Option String
  submitted_by_name : String
  submitted_by_email : String
  department : String
  participants : List ParticipantPayload
  otp_session : String
deriving DecidableEq

/-- The payload object built by the research onSubmit from the current
form values and the captured verification data. -/
def researchPayload (deptUuid : String) (vd : VerifData)
    (values : ResearchFormValues) : ResearchPayload :=
  { title := jsTrim values.title
    abstract := jsTrim values.abstract
    description := jsTrim values.description
    research_type := values.researchType
    status := values.status
    principal_investigator := jsTrim values.principalInvestigator
    pi_email := jsTrim values.piEmail
    start_date := strOrNone values.startDate
    end_date := strOrNone values.endDate
    funding_agency := trimOrNone values.fundingAgency
    funding_amount := jsNumber values.fundingAmount
    keywords := trimOrNone values.keywords
    methodology := trimOrNone values.methodology
    expected_outcomes := trimOrNone values.expectedOutcomes
    publications_url := trimOrNone values.publicationsUrl
    project_url := trimOrNone values.projectUrl
    github_url := trimOrNone values.githubUrl
    submitted_by_name := jsTrim values.submittedByName
    submitted_by_email := vd.email
    department := deptUuid
    participants := researchParticipants deptUuid values.participants
    otp_session := vd.sessionId }

/-- Outcome of the submission HTTP exchange, as the onSubmit handlers
observe it: a success response, a non-success response whose parsed
body may carry detail and error fields (response.json failures give an
empty object, hence two absent fields), or a thrown transport error
whose message is available when the thrown value is an Error. -/
inductive HttpOutcome where
  | ok
  | httpError (detail err : Option String)
  | transportError (msg : Option String)
deriving DecidableEq

/-- Result of one invocation of an onSubmit handler: the request
payload when a network call to the submission endpoint was issued (none
when no call was made), the toast message shown, and the component
state after the handler finishes. -/
structure SubmitStep (π σ : Type) where
  request : Option π
  toast : String
  final : σ
deriving DecidableEq

/-- JavaScript truthiness failure of `verificationData?.sessionId`: the
optional chain is falsy when the verification data is absent, and also
when its session identifier is the empty string. -/
def sessionFalsy (o : Option VerifData) : Bool :=
  match o with
  | none => true
  | some v => v.sessionId == ""

/-- Component state of the research form relevant to submission: the
current field values, the verified flag, the captured verification
data, and whether the verification_complete storage key is present. -/
structure ResearchState where
  values : ResearchFormValues
  isVerified : Bool
  verificationData : Option VerifData
  storageHasProof : Bool
deriving DecidableEq

/-- Embedding of the research onSubmit handler.  The source first tests
`!isVerified || !verificationData?.sessionId` and returns early with a
toast; here that early return is the fallthrough of the match and the
else branch of the truthiness test.  handleSubmit passes the current
form values, so the payload is built from st.values.  The HTTP outcome
parameter describes what the network would answer were the request
issued; it is consulted only on the branch that issues one. -/
def researchOnSubmit (deptUuid : String) (st : ResearchState)
    (outcome : HttpOutcome) : SubmitStep ResearchPayload ResearchState :=
  match st.verificationData with
  | some vd =>
    if st.isVerified && vd.sessionId != "" then
      let payload := researchPayload deptUuid vd st.values
      match outcome with
      | .ok =>
        { request := some payload
          toast := "Research submitted for departmental review"
          final := { values := researchDefaultValues, isVerified := false,
                     verificationData := none, storageHasProof := false } }
      | .httpError d e =>
        { request := some payload
          toast := jsMessage d e "Failed to submit research"
          final := st }
      | .transportError m =>
        { request := some payload
          toast := m.getD "Failed to submit research"
          final := st }
    else
      { request := none, toast := "Verify your campus email before submitting", final := st }
  | none =>
    { request := none, toast := "Verify your campus email before submitting", final := st }

/-- One author row of the journal form. -/
structure AuthorForm where
  givenName : String
  familyName : String
  email : String
  affiliation : String
  country : String
  bio : String
deriving DecidableEq

/-- Field values of the journal form. -/
structure JournalFormValues where
  title : String
  genre : String
  abstract : String
  keywords : String
  discipline : String
  year : String
  volume : String
  number : String
  pages : String
  submittedByName : String
  submittedByEmail : String
  authors : List AuthorForm
deriving DecidableEq

/-- The defaultValues constant of JournalSubmissionForm.tsx. -/
def journalDefaultValues : JournalFormValues :=
  { title := "", genre := "", abstract := "", keywords := "", discipline := "",
    year := "", volume := "", number := "", pages := "",
    submittedByName := "", submittedByEmail := "",
    authors := [{ givenName := "", familyName := "", email := "",
                  affiliation := "", country := "", bio := "" }] }

/-- Author entry of the outgoing journal payload. -/
structure AuthorPayload where
  given_name : String
  family_name : Option String
  email : Option String
  affiliation : Option String
  country : Option String
  bio : Option String
deriving DecidableEq

/-- The map step over author rows in the journal onSubmit. -/
def journalAuthor (a : AuthorForm) : AuthorPayload :=
  { given_name := jsTrim a.givenName
    family_name := trimOrNone a.familyName
    email := trimOrNone a.email
    affiliation := trimOrNone a.affiliation
    country := trimOrNone a.country
    bio := trimOrNone a.bio }

/-- The authors array built by the journal onSubmit: map each row to
its payload entry, then keep the entries whose given_name is truthy
(nonempty after trimming). -/
def journalAuthors (rows : List AuthorForm) : List AuthorPayload :=
  (rows.map journalAuthor).filter (fun q => q.given_name != "")

/-- The outgoing journal submission payload. -/
structure JournalPayload where
  title : String
  genre : String
  abstract : String
  keywords : Option String
  discipline : Option String
  year : Option ℚ
  volume : Option ℚ
  number : Option ℚ
  pages : Option String
  submitted_by_name : String
  submitted_by_email : String
  department : String
  authors : List AuthorPayload
  otp_session : String
deriving DecidableEq

/-- The payload object built by the journal onSubmit from the current
form values and the captured verification data. -/
def journalPayload (deptUuid : String) (vd : VerifData)
    (values : JournalFormValues) : JournalPayload :=
  { title := jsTrim values.title
    genre := jsTrim values.genre
    abstract := jsTrim values.abstract
    keywords := trimOrNone values.keywords
    discipline := trimOrNone values.discipline
    year := jsNumber values.year
    volume := jsNumber values.volume
    number := jsNumber values.number
    pages := trimOrNone values.pages
    submitted_by_name := jsTrim values.submittedByName
    submitted_by_email := vd.email
    department := deptUuid
    authors := journalAuthors values.authors
    otp_session := vd.sessionId }

/-- Component state of the journal form relevant to submission. -/
structure JournalState where
  values : JournalFormValues
  isVerified : Bool
  verificationData : Option VerifData
  storageHasProof : Bool
deriving DecidableEq

/-- Embedding of the journal onSubmit handler.  Beyond the research
variant, the journal handler aborts when the filtered authors array is
empty, before the payload is assembled and before any network call. -/
def journalOnSubmit (deptUuid : String) (st : JournalState)
    (outcome : HttpOutcome) : SubmitStep JournalPayload JournalState :=
  match st.verificationData with
  | some vd =>
    if st.isVerified && vd.sessionId != "" then
      let authors := journalAuthors st.values.authors
      if authors.isEmpty then
        { request := none, toast := "Add at least one author", final := st }
      else
        let payload := journalPayload deptUuid vd st.values
        match outcome with
        | .ok =>
          { request := some payload
            toast := "Journal article submitted"
            final := { values := journalDefaultValues, isVerified := false,
                       verificationData := none, storageHasProof := false } }
        | .httpError d e =>
          { request := some payload
            toast := jsMessage d e "Failed to submit article"
            final := st }
        | .transportError m =>
          { request := some payload
            toast := m.getD "Failed to submit article"
            final := st }
    else
      { request := none, toast := "Verify your campus email before submitting", final := st }
  | none =>
    { request := none, toast := "Verify your campus email before submitting", final := st }

/-- Neither submission form registers a useEffect cleanup function or
any other unmount handler, so unmounting the component performs no
storage operation: the presence of the verification_complete key is
unchanged by unmount. -/
def unmountStorageCleanup (storageHasProof : Bool) : Bool :=
  storageHasProof

/-- Parsed body of the OTP-issuance response: the session identifier
under either of its two accepted names, and the two error-message
fields.  A response whose JSON fails to parse yields the empty object,
hence four absent fields. -/
structure OtpBody where
  session_id : Option String
  sessionId : Option String
  detail : Option String
  error : Option String
deriving DecidableEq

/-- Outcome of the OTP-issuance HTTP exchange as handleVerify observes
it: a success response with its body, a non-success response with its
body, or a thrown transport error. -/
inductive OtpResponse where
  | ok (body : OtpBody)
  | httpError (body : OtpBody)
  | transportError (msg : Option String)
deriving DecidableEq

/-- Observable effects of one run of the verification-step handleVerify
handler, in the order the source performs them. -/
inductive VerifyEffect where
  | otpRequest (email fullName purpose : String)
  | storageSet (key value : String)
  | navigate (url : String)
  | toastMsg (msg : String)
deriving DecidableEq

/-- The session identifier chosen by handleVerify from a success body:
`data.session_id || data.sessionId` with JavaScript truthiness. -/
def chosenSession (body : OtpBody) : Option String :=
  match truthyStr body.session_id with
  | some s => some s
  | none => truthyStr body.sessionId

/-- Embedding of the VerificationStep handleVerify handler, shared by
the two files up to the purpose constant and the type discriminator.
The sending flag is local render state with no effect on the emitted
actions and is not modelled.  On success the source reads
`data.session_id || data.sessionId`; when both are falsy the value
passed to URLSearchParams is undefined, which serializes as the string
"undefined". -/
def handleVerify (purpose typeTag : String) (name email : String)
    (resp : OtpResponse) : List VerifyEffect :=
  if jsTrim name == "" || jsTrim email == "" then
    [.toastMsg "Please enter your name and email"]
  else
    .otpRequest (jsTrim email) (jsTrim name) purpose ::
      match resp with
      | .transportError m =>
        [.toastMsg (m.getD "Unable to send verification code")]
      | .httpError body =>
        [.toastMsg (jsMessage body.detail body.error "Unable to send verification code")]
      | .ok body =>
        let sessionVal := chosenSession body
        [.storageSet "pending_verification_name" (jsTrim name),
         .navigate ("/verification?" ++ encodePairs
           [("email", jsTrim email), ("name", jsTrim name),
            ("type", typeTag), ("session", sessionVal.getD "undefined")])]

/-- The handleVerify of ResearchSubmissionForm.tsx. -/
def researchHandleVerify (name email : String) (resp : OtpResponse) :
    List VerifyEffect :=
  handleVerify "research_submission" "research" name email resp

/-- The handleVerify of JournalSubmissionForm.tsx. -/
def journalHandleVerify (name email : String) (resp : OtpResponse) :
    List VerifyEffect :=
  handleVerify "journal_submission" "journal" name email resp

/-- C10: getPublicApiUrl returns the proxied path "/api/proxy" followed
by the path (inserting a slash separator when the path does not start
with one) when the proxy flag is enabled, and otherwise the fixed API
base host with a trailing slash removed concatenated with the
slash-prefixed path; the returned value does not depend on the debug
flag. -/
theorem getPublicApiUrl_spec (path : String) (d1 d2 : Bool) :
    (∀ proxy : Bool, getPublicApiUrl proxy d1 path = getPublicApiUrl proxy d2 path) ∧
    getPublicApiUrl true d1 path =
      "/api/proxy" ++ (if strStartsWithChar path '/' then "" else "/") ++ path ∧
    getPublicApiUrl false d1 path =
      stripTrailingSlash API_BASE ++
        (if strStartsWithChar path '/' then path else "/" ++ path) := by
  refine ⟨fun proxy => ?_, rfl, rfl⟩
  cases proxy <;> rfl

/-- C6: both payloads take submitted_by_email from the verification
proof's email and otp_session from its session identifier; the
locally-typed submittedByEmail field never reaches the payload, so two
form states differing only in that field produce the same
submitted_by_email. -/
theorem payload_uses_verified_identity (dept : String) (vd : VerifData)
    (rv : ResearchFormValues) (jv : JournalFormValues) (e1 e2 : String) :
    (researchPayload dept vd rv).submitted_by_email = vd.email ∧
    (researchPayload dept vd rv).otp_session = vd.sessionId ∧
    (journalPayload dept vd jv).submitted_by_email = vd.email ∧
    (journalPayload dept vd jv).otp_session = vd.sessionId ∧
    (researchPayload dept vd { rv with submittedByEmail := e1 }).submitted_by_email =
      (researchPayload dept vd { rv with submittedByEmail := e2 }).submitted_by_email ∧
    (journalPayload dept vd { jv with submittedByEmail := e1 }).submitted_by_email =
      (journalPayload dept vd { jv with submittedByEmail := e2 }).submitted_by_email :=
  ⟨rfl, rfl, rfl, rfl, rfl, rfl⟩

/-- C1: with verified=true in the URL and a parsed stored proof, each
form accepts the proof exactly when its purpose equals the form's
expected constant and the proof is strictly under 1,800,000 ms old:
acceptance sets the verified flag, captures email and session
identifier, prefills the submitted-by email (and the name when the
stored name is truthy), while a mismatched purpose or an age of at
least 1,800,000 ms leaves the outcome the no-op one, in particular
unverified. -/
theorem verification_ingest_gate (d : ProofData) (now : Int) :
    ((d.purpose = some "research_submission" ∧ now - d.verifiedAt < 1800000) →
      researchIngest (some "true") (.parsed d) now =
        { isVerified := true
          verificationData := some { email := d.email, sessionId := d.sessionId }
          emailPrefill := some d.email
          namePrefill := truthyStr d.name
          toast := some "Email verified successfully!" }) ∧
    (¬ (d.purpose = some "research_submission" ∧ now - d.verifiedAt < 1800000) →
      researchIngest (some "true") (.parsed d) now = noIngest) ∧
    ((d.purpose = some "journal_submission" ∧ now - d.verifiedAt < 1800000) →
      journalIngest (some "true") (.parsed d) now =
        { isVerified := true
          verificationData := some { email := d.email, sessionId := d.sessionId }
          emailPrefill := some d.email
          namePrefill := truthyStr d.name
          toast := some "Email verified successfully!" }) ∧
    (¬ (d.purpose = some "journal_submission" ∧ now - d.verifiedAt < 1800000) →
      journalIngest (some "true") (.parsed d) now = noIngest) := by
  refine ⟨fun h => ?_, fun h => ?_, fun h => ?_, fun h => ?_⟩ <;>
    simp only [researchIngest, journalIngest, reduceIte] <;>
    [rw [if_pos]; rw [if_neg]; rw [if_pos]; rw [if_neg]] <;>
    simpa using h

/-- C1 witness: concrete accepting and rejecting runs on both forms. -/
theorem verification_ingest_gate_witness :
    (researchIngest (some "true")
        (.parsed { purpose := some "research_submission", verifiedAt := 0,
                   email := "a@x.np", sessionId := "s1", name := some "A" }) 60000 =
      { isVerified := true
        verificationData := some { email := "a@x.np", sessionId := "s1" }
        emailPrefill := some "a@x.np"
        namePrefill := truthyStr (some "A")
        toast := some "Email verified successfully!" }) ∧
    (researchIngest (some "true")
        (.parsed { purpose := some "journal_submission", verifiedAt := 0,
                   email := "a@x.np", sessionId := "s1", name := none }) 60000 = noIngest) ∧
    (journalIngest (some "true")
        (.parsed { purpose := some "journal_submission", verifiedAt := 0,
                   email := "a@x.np", sessionId := "s1", name := none }) 60000 =
      { isVerified := true
        verificationData := some { email := "a@x.np", sessionId := "s1" }
        emailPrefill := some "a@x.np"
        namePrefill := truthyStr none
        toast := some "Email verified successfully!" }) ∧
    (journalIngest (some "true")
        (.parsed { purpose := some "journal_submission", verifiedAt := 0,
                   email := "a@x.np", sessionId := "s1", name := none }) 1800000 = noIngest) :=
  ⟨(verification_ingest_gate
      { purpose := some "research_submission", verifiedAt := 0,
        email := "a@x.np", sessionId := "s1", name := some "A" } 60000).1 (by decide),
   (verification_ingest_gate
      { purpose := some "journal_submission", verifiedAt := 0,
        email := "a@x.np", sessionId := "s1", name := none } 60000).2.1 (by decide),
   (verification_ingest_gate
      { purpose := some "journal_submission", verifiedAt := 0,
        email := "a@x.np", sessionId := "s1", name := none } 60000).2.2.1 (by decide),
   (verification_ingest_gate
      { purpose := some "journal_submission", verifiedAt := 0,
        email := "a@x.np", sessionId := "s1", name := none } 1800000).2.2.2 (by decide)⟩

/-- C2: when the verified flag is false or the captured verification
data lacks a truthy session identifier, onSubmit on either form issues
no request to the submission endpoint, surfaces the verification error
toast, and leaves the state unchanged. -/
theorem unverified_submit_no_request (dept : String) (rst : ResearchState)
    (jst : JournalState) (ro jo : HttpOutcome)
    (hr : rst.isVerified = false ∨ sessionFalsy rst.verificationData = true)
    (hj : jst.isVerified = false ∨ sessionFalsy jst.verificationData = true) :
    researchOnSubmit dept rst ro =
      { request := none, toast := "Verify your campus email before submitting",
        final := rst } ∧
    journalOnSubmit dept jst jo =
      { request := none, toast := "Verify your campus email before submitting",
        final := jst } := by
  constructor
  · unfold researchOnSubmit
    match hv : rst.verificationData with
    | none => rfl
    | some vd =>
      have hcond : (rst.isVerified && vd.sessionId != "") = false := by
        rcases hr with hr | hr
        · simp [hr]
        · rw [hv] at hr
          simp only [sessionFalsy, beq_iff_eq] at hr
          simp [hr]
      simp [hcond]
  · unfold journalOnSubmit
    match hv : jst.verificationData with
    | none => rfl
    | some vd =>
      have hcond : (jst.isVerified && vd.sessionId != "") = false := by
        rcases hj with hj | hj
        · simp [hj]
        · rw [hv] at hj
          simp only [sessionFalsy, beq_iff_eq] at hj
          simp [hj]
      simp [hcond]

/-- C2 witness: a concrete unverified research state and a concrete
journal state with an empty session identifier both abort without a
request. -/
theorem unverified_submit_no_request_witness :
    researchOnSubmit "d1"
        { values := researchDefaultValues, isVerified := false,
          verificationData := none, storageHasProof := false } .ok =
      { request := none, toast := "Verify your campus email before submitting",
        final := { values := researchDefaultValues, isVerified := false,
                   verificationData := none, storageHasProof := false } } ∧
    journalOnSubmit "d1"
        { values := journalDefaultValues, isVerified := true,
          verificationData := some { email := "a@x.np", sessionId := "" },
          storageHasProof := true } .ok =
      { request := none, toast := "Verify your campus email before submitting",
        final := { values := journalDefaultValues, isVerified := true,
                   verificationData := some { email := "a@x.np", sessionId := "" },
                   storageHasProof := true } } :=
  unverified_submit_no_request "d1"
    { values := researchDefaultValues, isVerified := false,
      verificationData := none, storageHasProof := false }
    { values := journalDefaultValues, isVerified := true,
      verificationData := some { email := "a@x.np", sessionId := "" },
      storageHasProof := true } .ok .ok
    (Or.inl rfl) (Or.inr (by decide))

/-- C3: the outgoing person arrays are exactly the rows whose name
field is nonempty after trimming, in order, and a retained row with all
other fields blank is still included with each blank optional field
absent. -/
theorem person_rows_filtered (dept : String) (rows : List ParticipantForm)
    (arows : List AuthorForm) (p : ParticipantForm) (a : AuthorForm)
    (hp : jsTrim p.fullName ≠ "")
    (hpb : jsTrim p.email = "" ∧ jsTrim p.role = "" ∧ jsTrim p.designation = "" ∧
           jsTrim p.organization = "" ∧ jsTrim p.linkedinUrl = "" ∧ jsTrim p.orcidId = "")
    (ha : jsTrim a.givenName ≠ "")
    (hab : jsTrim a.familyName = "" ∧ jsTrim a.email = "" ∧ jsTrim a.affiliation = "" ∧
           jsTrim a.country = "" ∧ jsTrim a.bio = "") :
    researchParticipants dept rows =
      (rows.filter (fun r => jsTrim r.fullName != "")).map (researchParticipant dept) ∧
    journalAuthors arows =
      (arows.filter (fun r => jsTrim r.givenName != "")).map journalAuthor ∧
    researchParticipant dept p =
      { full_name := jsTrim p.fullName, participant_type := p.participantType,
        email := none, role := none, designation := none, organization := none,
        linkedin_url := none, orcid_id := none, department := dept } ∧
    journalAuthor a =
      { given_name := jsTrim a.givenName, family_name := none, email := none,
        affiliation := none, country := none, bio := none } ∧
    (p ∈ rows → researchParticipant dept p ∈ researchParticipants dept rows) ∧
    (a ∈ arows → journalAuthor a ∈ journalAuthors arows) := by
  obtain ⟨h1, h2, h3, h4, h5, h6⟩ := hpb
  obtain ⟨g1, g2, g3, g4, g5⟩ := hab
  have hre : researchParticipants dept rows =
      (rows.filter (fun r => jsTrim r.fullName != "")).map (researchParticipant dept) := by
    rw [researchParticipants, List.filter_map]
    rfl
  have hjo : journalAuthors arows =
      (arows.filter (fun r => jsTrim r.givenName != "")).map journalAuthor := by
    rw [journalAuthors, List.filter_map]
    rfl
  refine ⟨hre, hjo, ?_, ?_, ?_, ?_⟩
  · simp [researchParticipant, trimOrNone, h1, h2, h3, h4, h5, h6]
  · simp [journalAuthor, trimOrNone, g1, g2, g3, g4, g5]
  · intro hmem
    rw [hre]
    exact List.mem_map_of_mem _ (List.mem_filter.mpr ⟨hmem, by simpa using hp⟩)
  · intro hmem
    rw [hjo]
    exact List.mem_map_of_mem _ (List.mem_filter.mpr ⟨hmem, by simpa using ha⟩)

/-- C3 witness: a concrete list with one blank-name row and one row
whose only nonblank field is the name maps to a single payload entry
with every optional field absent. -/
theorem person_rows_filtered_witness :
    researchParticipants "d1"
        [{ fullName := " ", participantType := "student", email := "x@y.np",
           role := "", designation := "", organization := "", linkedinUrl := "",
           orcidId := "" },
         { fullName := " N ", participantType := "faculty", email := " ",
           role := "", designation := " ", organization := "", linkedinUrl := "",
           orcidId := "" }] =
      [{ full_name := "N", participant_type := "faculty", email := none,
         role := none, designation := none, organization := none,
         linkedin_url := none, orcid_id := none, department := "d1" }] ∧
    journalAuthors
        [{ givenName := "", familyName := "F", email := "", affiliation := "",
           country := "", bio := "" },
         { givenName := " G ", familyName := " ", email := "", affiliation := "",
           country := "", bio := " " }] =
      [{ given_name := "G", family_name := none, email := none,
         affiliation := none, country := none, bio := none }] := by
  have h := person_rows_filtered "d1"
    [{ fullName := " ", participantType := "student", email := "x@y.np",
       role := "", designation := "", organization := "", linkedinUrl := "",
       orcidId := "" },
     { fullName := " N ", participantType := "faculty", email := " ",
       role := "", designation := " ", organization := "", linkedinUrl := "",
       orcidId := "" }]
    [{ givenName := "", familyName := "F", email := "", affiliation := "",
       country := "", bio := "" },
     { givenName := " G ", familyName := " ", email := "", affiliation := "",
       country := "", bio := " " }]
    { fullName := " N ", participantType := "faculty", email := " ",
      role := "", designation := " ", organization := "", linkedinUrl := "",
      orcidId := "" }
    { givenName := " G ", familyName := " ", email := "", affiliation := "",
      country := "", bio := " " }
    (by decide) (by decide) (by decide) (by decide)
  exact ⟨h.1.trans (by decide), h.2.1.trans (by decide)⟩

/-- C4 counterexample: the forms register no unmount cleanup, so
unmounting with the verification_complete key present does not remove
it, contrary to the claim that the storage key removal also occurs on
component unmount. -/
theorem unmount_keeps_proof_key : unmountStorageCleanup true ≠ false := by
  decide

/-- C4 amended: a successful submission restores every field to its
default value, clears the verified flag and the captured verification
data, and removes the verification_complete storage key; component
unmount, by contrast, performs no storage operation because neither
form registers an unmount cleanup. -/
theorem successful_submit_resets (dept : String) (rst : ResearchState)
    (jst : JournalState)
    (hr : rst.isVerified = true) (hrs : sessionFalsy rst.verificationData = false)
    (hj : jst.isVerified = true) (hjs : sessionFalsy jst.verificationData = false)
    (hja : (journalAuthors jst.values.authors).isEmpty = false) :
    (researchOnSubmit dept rst .ok).final =
      { values := researchDefaultValues, isVerified := false,
        verificationData := none, storageHasProof := false } ∧
    (journalOnSubmit dept jst .ok).final =
      { values := journalDefaultValues, isVerified := false,
        verificationData := none, storageHasProof := false } ∧
    (∀ b, unmountStorageCleanup b = b) := by
  refine ⟨?_, ?_, fun b => rfl⟩
  · unfold researchOnSubmit
    match hv : rst.verificationData with
    | none => rw [hv] at hrs; exact absurd hrs (by decide)
    | some vd =>
      have hcond : (rst.isVerified && vd.sessionId != "") = true := by
        rw [hv] at hrs
        simp only [sessionFalsy, beq_eq_false_iff_ne] at hrs
        simp [hr, hrs]
      simp [hcond]
  · unfold journalOnSubmit
    match hv : jst.verificationData with
    | none => rw [hv] at hjs; exact absurd hjs (by decide)
    | some vd =>
      have hcond : (jst.isVerified && vd.sessionId != "") = true := by
        rw [hv] at hjs
        simp only [sessionFalsy, beq_eq_false_iff_ne] at hjs
        simp [hj, hjs]
      simp [hcond, hja]

/-- C4 witness: concrete verified states are reset by a success
response on both forms. -/
theorem successful_submit_resets_witness :
    (researchOnSubmit "d1"
        { values := { researchDefaultValues with title := "T" }, isVerified := true,
          verificationData := some { email := "a@x.np", sessionId := "s1" },
          storageHasProof := true } .ok).final =
      { values := researchDefaultValues, isVerified := false,
        verificationData := none, storageHasProof := false } ∧
    (journalOnSubmit "d1"
        { values := { journalDefaultValues with
                      authors := [{ givenName := "G", familyName := "", email := "",
                                    affiliation := "", country := "", bio := "" }] },
          isVerified := true,
          verificationData := some { email := "a@x.np", sessionId := "s1" },
          storageHasProof := true } .ok).final =
      { values := journalDefaultValues, isVerified := false,
        verificationData := none, storageHasProof := false } := by
  have h := successful_submit_resets "d1"
    { values := { researchDefaultValues with title := "T" }, isVerified := true,
      verificationData := some { email := "a@x.np", sessionId := "s1" },
      storageHasProof := true }
    { values := { journalDefaultValues with
                  authors := [{ givenName := "G", familyName := "", email := "",
                                affiliation := "", country := "", bio := "" }] },
      isVerified := true,
      verificationData := some { email := "a@x.np", sessionId := "s1" },
      storageHasProof := true }
    rfl (by decide) rfl (by decide) (by decide)
  exact ⟨h.1, h.2.1⟩

/-- C5: a failing submission (non-success response or thrown transport
error) leaves the whole component state, including field values,
verified flag, captured verification data and the stored proof key,
exactly as it was, and surfaces the server's detail or error field,
else the generic fallback. -/
theorem failed_submit_preserves_state (dept : String) (rst : ResearchState)
    (jst : JournalState) (d e m : Option String)
    (hr : rst.isVerified = true) (hrs : sessionFalsy rst.verificationData = false)
    (hj : jst.isVerified = true) (hjs : sessionFalsy jst.verificationData = false)
    (hja : (journalAuthors jst.values.authors).isEmpty = false) :
    (researchOnSubmit dept rst (.httpError d e)).final = rst ∧
    (researchOnSubmit dept rst (.httpError d e)).toast =
      jsMessage d e "Failed to submit research" ∧
    (researchOnSubmit dept rst (.transportError m)).final = rst ∧
    (researchOnSubmit dept rst (.transportError m)).toast =
      m.getD "Failed to submit research" ∧
    (journalOnSubmit dept jst (.httpError d e)).final = jst ∧
    (journalOnSubmit dept jst (.httpError d e)).toast =
      jsMessage d e "Failed to submit article" ∧
    (journalOnSubmit dept jst (.transportError m)).final = jst ∧
    (journalOnSubmit dept jst (.transportError m)).toast =
      m.getD "Failed to submit article" := by
  unfold researchOnSubmit journalOnSubmit
  match hv : rst.verificationData, hw : jst.verificationData with
  | none, _ => rw [hv] at hrs; exact absurd hrs (by decide)
  | some vd, none => rw [hw] at hjs; exact absurd hjs (by decide)
  | some vd, some wd =>
    have hcond : (rst.isVerified && vd.sessionId != "") = true := by
      rw [hv] at hrs
      simp only [sessionFalsy, beq_eq_false_iff_ne] at hrs
      simp [hr, hrs]
    have hcond2 : (jst.isVerified && wd.sessionId != "") = true := by
      rw [hw] at hjs
      simp only [sessionFalsy, beq_eq_false_iff_ne] at hjs
      simp [hj, hjs]
    simp [hcond, hcond2, hja]

/-- C5 witness: concrete failing runs preserve a concrete verified
state on both forms and surface the server detail. -/
theorem failed_submit_preserves_state_witness :
    (researchOnSubmit "d1"
        { values := { researchDefaultValues with title := "T" }, isVerified := true,
          verificationData := some { email := "a@x.np", sessionId := "s1" },
          storageHasProof := true } (.httpError (some "bad") none)).final =
      { values := { researchDefaultValues with title := "T" }, isVerified := true,
        verificationData := some { email := "a@x.np", sessionId := "s1" },
        storageHasProof := true } ∧
    (researchOnSubmit "d1"
        { values := { researchDefaultValues with title := "T" }, isVerified := true,
          verificationData := some { email := "a@x.np", sessionId := "s1" },
          storageHasProof := true } (.httpError (some "bad") none)).toast =
      jsMessage (some "bad") none "Failed to submit research" ∧
    (journalOnSubmit "d1"
        { values := { journalDefaultValues with
                      authors := [{ givenName := "G", familyName := "", email := "",
                                    affiliation := "", country := "", bio := "" }] },
          isVerified := true,
          verificationData := some { email := "a@x.np", sessionId := "s1" },
          storageHasProof := true } (.transportError none)).final =
      { values := { journalDefaultValues with
                    authors := [{ givenName := "G", familyName := "", email := "",
                                  affiliation := "", country := "", bio := "" }] },
        isVerified := true,
        verificationData := some { email := "a@x.np", sessionId := "s1" },
        storageHasProof := true } := by
  have h := failed_submit_preserves_state "d1"
    { values := { researchDefaultValues with title := "T" }, isVerified := true,
      verificationData := some { email := "a@x.np", sessionId := "s1" },
      storageHasProof := true }
    { values := { journalDefaultValues with
                  authors := [{ givenName := "G", familyName := "", email := "",
                                affiliation := "", country := "", bio := "" }] },
      isVerified := true,
      verificationData := some { email := "a@x.np", sessionId := "s1" },
      storageHasProof := true }
    (some "bad") none none
    rfl (by decide) rfl (by decide) (by decide)
  exact ⟨h.1, h.2.1, h.2.2.2.2.2.2.1⟩

/-- C7 counterexample: a blank funding amount is converted by Number to
0, not NaN, so the payload carries 0 rather than an absent field (the
journal year behaves the same way), and a whitespace start date, which
is empty after trimming, is passed through untrimmed rather than made
absent. -/
theorem blank_numeric_yields_zero :
    (researchPayload "d1" { email := "a@x.np", sessionId := "s1" }
        researchDefaultValues).funding_amount = some 0 ∧
    (journalPayload "d1" { email := "a@x.np", sessionId := "s1" }
        journalDefaultValues).year = some 0 ∧
    (researchPayload "d1" { email := "a@x.np", sessionId := "s1" }
        { researchDefaultValues with startDate := " " }).start_date = some " " :=
  ⟨rfl, rfl, rfl⟩

/-- C7 amended: trimmed optional text fields that are empty after
trimming are absent from the payloads; the date fields are passed
untrimmed and are absent exactly when the raw string is empty; the
numeric fields carry the Number conversion of the entered string, with
a NaN conversion (non-numeric input) becoming absent rather than an
error, while a blank numeric field converts to 0 and is sent as 0. -/
theorem optional_field_normalization (dept : String) (vd : VerifData)
    (rv : ResearchFormValues) (jv : JournalFormValues) (s : String) :
    (researchPayload dept vd rv).funding_agency = trimOrNone rv.fundingAgency ∧
    (researchPayload dept vd rv).keywords = trimOrNone rv.keywords ∧
    (researchPayload dept vd rv).methodology = trimOrNone rv.methodology ∧
    (researchPayload dept vd rv).expected_outcomes = trimOrNone rv.expectedOutcomes ∧
    (researchPayload dept vd rv).publications_url = trimOrNone rv.publicationsUrl ∧
    (researchPayload dept vd rv).project_url = trimOrNone rv.projectUrl ∧
    (researchPayload dept vd rv).github_url = trimOrNone rv.githubUrl ∧
    (researchPayload dept vd rv).start_date = strOrNone rv.startDate ∧
    (researchPayload dept vd rv).end_date = strOrNone rv.endDate ∧
    (researchPayload dept vd rv).funding_amount = jsNumber rv.fundingAmount ∧
    (journalPayload dept vd jv).keywords = trimOrNone jv.keywords ∧
    (journalPayload dept vd jv).discipline = trimOrNone jv.discipline ∧
    (journalPayload dept vd jv).pages = trimOrNone jv.pages ∧
    (journalPayload dept vd jv).year = jsNumber jv.year ∧
    (journalPayload dept vd jv).volume = jsNumber jv.volume ∧
    (journalPayload dept vd jv).number = jsNumber jv.number ∧
    (jsTrim s = "" → trimOrNone s = none) ∧
    jsNumber "" = some 0 ∧
    jsNumber "abc" = none ∧
    jsNumber "2024" = some ((2024 : Nat) : ℚ) := by
  refine ⟨rfl, rfl, rfl, rfl, rfl, rfl, rfl, rfl, rfl, rfl, rfl, rfl, rfl, rfl,
    rfl, rfl, fun h => ?_, rfl, rfl, rfl⟩
  simp [trimOrNone, h]

/-- C7 witness: the normalization equations instantiated at the default
research values with a whitespace keywords field and the empty string
for the trimming implication. -/
theorem optional_field_normalization_witness :
    (researchPayload "d1" { email := "a@x.np", sessionId := "s1" }
        { researchDefaultValues with keywords := " " }).keywords =
      trimOrNone " " ∧
    trimOrNone "" = none ∧
    jsNumber "" = some 0 ∧
    jsNumber "abc" = none := by
  have h := optional_field_normalization "d1" { email := "a@x.np", sessionId := "s1" }
    { researchDefaultValues with keywords := " " } journalDefaultValues ""
  exact ⟨h.2.1, h.2.2.2.2.2.2.2.2.2.2.2.2.2.2.2.2.1 rfl, h.2.2.2.2.2.2.2.2.2.2.2.2.2.2.2.2.2.1,
    h.2.2.2.2.2.2.2.2.2.2.2.2.2.2.2.2.2.2.1⟩

/-- C8 counterexample: on the journal form, a verified state whose only
author row has a whitespace given name is dropped as a blank row, and
the submission then aborts with no request, contrary to the claim that
dropping every row never by itself causes the submission to abort. -/
theorem all_authors_dropped_aborts :
    journalOnSubmit "d1"
        { values := { journalDefaultValues with
                      authors := [{ givenName := " ", familyName := "", email := "",
                                    affiliation := "", country := "", bio := "" }] },
          isVerified := true,
          verificationData := some { email := "a@x.np", sessionId := "s1" },
          storageHasProof := true } .ok =
      { request := none, toast := "Add at least one author",
        final := { values := { journalDefaultValues with
                               authors := [{ givenName := " ", familyName := "",
                                             email := "", affiliation := "",
                                             country := "", bio := "" }] },
                   isVerified := true,
                   verificationData := some { email := "a@x.np", sessionId := "s1" },
                   storageHasProof := true } } := by
  decide

/-- C8 amended: person rows with an empty post-trim name are dropped,
not reported as errors; the research form proceeds to issue its request
even when every participant row is dropped, while the journal form
issues its request when at least one author survives the filter and
aborts without a request when every author row is dropped. -/
theorem empty_name_rows_dropped (dept : String) (rst : ResearchState)
    (jst : JournalState) (o : HttpOutcome)
    (hr : rst.isVerified = true) (hrs : sessionFalsy rst.verificationData = false)
    (hj : jst.isVerified = true) (hjs : sessionFalsy jst.verificationData = false) :
    (researchOnSubmit dept rst o).request.isSome = true ∧
    (journalAuthors jst.values.authors = [] →
      journalOnSubmit dept jst o =
        { request := none, toast := "Add at least one author", final := jst }) ∧
    (journalAuthors jst.values.authors ≠ [] →
      (journalOnSubmit dept jst o).request.isSome = true) := by
  refine ⟨?_, ?_, ?_⟩
  · unfold researchOnSubmit
    match hv : rst.verificationData with
    | none => rw [hv] at hrs; exact absurd hrs (by decide)
    | some vd =>
      have hcond : (rst.isVerified && vd.sessionId != "") = true := by
        rw [hv] at hrs
        simp only [sessionFalsy, beq_eq_false_iff_ne] at hrs
        simp [hr, hrs]
      cases o <;> simp [hcond]
  · intro hempty
    unfold journalOnSubmit
    match hv : jst.verificationData with
    | none => rw [hv] at hjs; exact absurd hjs (by decide)
    | some vd =>
      have hcond : (jst.isVerified && vd.sessionId != "") = true := by
        rw [hv] at hjs
        simp only [sessionFalsy, beq_eq_false_iff_ne] at hjs
        simp [hj, hjs]
      simp [hcond, hempty]
  · intro hne
    unfold journalOnSubmit
    match hv : jst.verificationData with
    | none => rw [hv] at hjs; exact absurd hjs (by decide)
    | some vd =>
      have hcond : (jst.isVerified && vd.sessionId != "") = true := by
        rw [hv] at hjs
        simp only [sessionFalsy, beq_eq_false_iff_ne] at hjs
        simp [hj, hjs]
      have hne2 : (journalAuthors jst.values.authors).isEmpty = false := by
        cases hyp : journalAuthors jst.values.authors with
        | nil => exact absurd hyp hne
        | cons x xs => rfl
      cases o <;> simp [hcond, hne2]

/-- C8 witness: a research submission with every participant row blank
still issues its request, and a journal submission with one surviving
author issues its request. -/
theorem empty_name_rows_dropped_witness :
    (researchOnSubmit "d1"
        { values := researchDefaultValues, isVerified := true,
          verificationData := some { email := "a@x.np", sessionId := "s1" },
          storageHasProof := true } .ok).request.isSome = true ∧
    (journalOnSubmit "d1"
        { values := { journalDefaultValues with
                      authors := [{ givenName := "G", familyName := "", email := "",
                                    affiliation := "", country := "", bio := "" }] },
          isVerified := true,
          verificationData := some { email := "a@x.np", sessionId := "s1" },
          storageHasProof := true } .ok).request.isSome = true := by
  have h1 := empty_name_rows_dropped "d1"
    { values := researchDefaultValues, isVerified := true,
      verificationData := some { email := "a@x.np", sessionId := "s1" },
      storageHasProof := true }
    { values := { journalDefaultValues with
                  authors := [{ givenName := "G", familyName := "", email := "",
                                affiliation := "", country := "", bio := "" }] },
      isVerified := true,
      verificationData := some { email := "a@x.np", sessionId := "s1" },
      storageHasProof := true } .ok
    rfl (by decide) rfl (by decide)
  exact ⟨h1.1, h1.2.2 (by decide)⟩

/-- C9: on a successful OTP-issuance response with a truthy session
identifier and nonempty trimmed inputs, handleVerify issues the OTP
request, then persists the trimmed name under
pending_verification_name, then navigates to the verification page with
the query parameters email, name, type and session in that order. -/
theorem otp_success_navigates (name email : String) (body : OtpBody) (s : String)
    (hn : jsTrim name ≠ "") (he : jsTrim email ≠ "")
    (hs : chosenSession body = some s) :
    researchHandleVerify name email (.ok body) =
      [.otpRequest (jsTrim email) (jsTrim name) "research_submission",
       .storageSet "pending_verification_name" (jsTrim name),
       .navigate ("/verification?" ++ encodePairs
         [("email", jsTrim email), ("name", jsTrim name),
          ("type", "research"), ("session", s)])] ∧
    journalHandleVerify name email (.ok body) =
      [.otpRequest (jsTrim email) (jsTrim name) "journal_submission",
       .storageSet "pending_verification_name" (jsTrim name),
       .navigate ("/verification?" ++ encodePairs
         [("email", jsTrim email), ("name", jsTrim name),
          ("type", "journal"), ("session", s)])] := by
  have hg : (jsTrim name == "" || jsTrim email == "") = false := by
    simp [hn, he]
  constructor
  · unfold researchHandleVerify handleVerify
    rw [hg]
    simp [hs]
  · unfold journalHandleVerify handleVerify
    rw [hg]
    simp [hs]

/-- C9 witness: the concrete journal example of the specification: an
OTP request for A B at a@tcioe.edu.np answered with session s1
persists the pending name and navigates to the expected URL, with the
at sign percent-encoded and the space serialized as a plus. -/
theorem otp_success_navigates_witness :
    journalHandleVerify "A B" "a@tcioe.edu.np"
        (.ok { session_id := some "s1", sessionId := none,
               detail := none, error := none }) =
      [.otpRequest "a@tcioe.edu.np" "A B" "journal_submission",
       .storageSet "pending_verification_name" "A B",
       .navigate "/verification?email=a%40tcioe.edu.np&name=A+B&type=journal&session=s1"] := by
  have h := (otp_success_navigates "A B" "a@tcioe.edu.np"
    { session_id := some "s1", sessionId := none, detail := none, error := none }
    "s1" (by decide) (by decide) (by decide)).2
  exact h.trans (by decide)

end Doce
